import Mathlib

/-!
Verification of the accelerometer calibration engine of `pyberryimu`
(`pyberryimu/calibration/standard.py`), embedded shallowly in Lean 4.

Numeric conventions of the embedding:
* Python floats are modelled as exact numbers: the Gauss-Newton solver and
  the calibration state are embedded over `ℚ` (all operations used there are
  field operations), while the Jacobian/derivative analysis is carried out
  over `ℝ` through the same generic definitions.
* `np.linalg.norm(R) <= prior` comparisons are modelled by the equivalent
  comparison of squared norms (`Real.sqrt` is monotone on nonnegatives), so
  the state carries squared residual norms.
* `np.linalg.inv` is the matrix inverse `det⁻¹ • adjugate`; on a singular
  argument it raises `LinAlgError`, modelled as the `singular` error.
-/

namespace PyBerryIMU

variable {K : Type} [Field K]

/-- One normalized calibration point: a 3-component vector
(`(raw - zero) * sensitivity`). -/
abbrev Point (K : Type) := Fin 3 → K

/-- `error_function` of `_perform_calibration_optimisation`
(standard.py line 265): `np.sum((M.dot((b - y)) ** 2)) - 1`. -/
def error_function (M : Matrix (Fin 3) (Fin 3) K) (b y : Point K) : K :=
  (∑ i : Fin 3, (∑ j : Fin 3, M i j * (b j - y j)) ^ 2) - 1

/-- `_jacobian` of `_perform_calibration_optimisation`
(standard.py lines 268-318), transcribed entry by entry. -/
def _jacobian (M : Matrix (Fin 3) (Fin 3) K) (b p : Point K) : Fin 9 → K
  | 0 => 2 * (b 0 - p 0) *
      (M 0 0 * (b 0 - p 0) + M 0 1 * (b 1 - p 1) + M 0 2 * (b 2 - p 2))
  | 1 => 2 * (b 1 - p 1) *
      (M 0 0 * (b 0 - p 0) + M 0 1 * (b 1 - p 1) + M 0 2 * (b 2 - p 2)) +
    2 * (b 0 - p 0) *
      (M 0 1 * (b 0 - p 0) + M 1 1 * (b 1 - p 1) + M 1 2 * (b 2 - p 2))
  | 2 => 2 * (b 0 - p 0) *
      (M 0 2 * (b 0 - p 0) + M 1 2 * (b 1 - p 1) + M 2 2 * (b 2 - p 2)) +
    2 * (b 2 - p 2) *
      (M 0 0 * (b 0 - p 0) + M 0 1 * (b 1 - p 1) + M 0 2 * (b 2 - p 2))
  | 3 => 2 * (b 1 - p 1) *
      (M 0 1 * (b 0 - p 0) + M 1 1 * (b 1 - p 1) + M 1 2 * (b 2 - p 2))
  | 4 => 2 * (b 1 - p 1) *
      (M 0 2 * (b 0 - p 0) + M 1 2 * (b 1 - p 1) + M 2 2 * (b 2 - p 2)) +
    2 * (b 2 - p 2) *
      (M 0 1 * (b 0 - p 0) + M 1 1 * (b 1 - p 1) + M 1 2 * (b 2 - p 2))
  | 5 => 2 * (b 2 - p 2) *
      (M 0 2 * (b 0 - p 0) + M 1 2 * (b 1 - p 1) + M 2 2 * (b 2 - p 2))
  | 6 => 2 * M 0 0 *
      (M 0 0 * (b 0 - p 0) + M 0 1 * (b 1 - p 1) + M 0 2 * (b 2 - p 2)) +
    2 * M 0 1 *
      (M 0 1 * (b 0 - p 0) + M 1 1 * (b 1 - p 1) + M 1 2 * (b 2 - p 2)) +
    2 * M 0 2 *
      (M 0 2 * (b 0 - p 0) + M 1 2 * (b 1 - p 1) + M 2 2 * (b 2 - p 2))
  | 7 => 2 * M 0 1 *
      (M 0 0 * (b 0 - p 0) + M 0 1 * (b 1 - p 1) + M 0 2 * (b 2 - p 2)) +
    2 * M 1 1 *
      (M 0 1 * (b 0 - p 0) + M 1 1 * (b 1 - p 1) + M 1 2 * (b 2 - p 2)) +
    2 * M 1 2 *
      (M 0 2 * (b 0 - p 0) + M 1 2 * (b 1 - p 1) + M 2 2 * (b 2 - p 2))
  | 8 => 2 * M 0 2 *
      (M 0 0 * (b 0 - p 0) + M 0 1 * (b 1 - p 1) + M 0 2 * (b 2 - p 2)) +
    2 * M 1 2 *
      (M 0 1 * (b 0 - p 0) + M 1 1 * (b 1 - p 1) + M 1 2 * (b 2 - p 2)) +
    2 * M 2 2 *
      (M 0 2 * (b 0 - p 0) + M 1 2 * (b 1 - p 1) + M 2 2 * (b 2 - p 2))

/-- `optvec_to_M_and_b` (standard.py lines 321-322): maps the 9-parameter
optimization vector `[Mxx,Mxy,Mxz,Myy,Myz,Mzz,Bx,By,Bz]` to the symmetric
scale-factor matrix and the bias vector. -/
def optvec_to_M_and_b (v : Fin 9 → K) :
    Matrix (Fin 3) (Fin 3) K × (Fin 3 → K) :=
  (!![v 0, v 1, v 2; v 1, v 3, v 4; v 2, v 4, v 5], ![v 6, v 7, v 8])

/-- The residual of one point as a function of the optimization vector:
`error_function` evaluated at the matrix and bias built from `x`. -/
def residualAt (x : Fin 9 → K) (p : Point K) : K :=
  error_function (optvec_to_M_and_b x).1 (optvec_to_M_and_b x).2 p

/-- The Jacobian row of one point as a function of the optimization vector. -/
def jacobianAt (x : Fin 9 → K) (p : Point K) : Fin 9 → K :=
  _jacobian (optvec_to_M_and_b x).1 (optvec_to_M_and_b x).2 p

/-! ### The Gauss-Newton iteration loop, over `ℚ` -/

/-- Observable failures of the calibration engine.  Each of the first four
constructors corresponds to one raise site: `insufficientData` to the
`ValueError` at the head of `_perform_calibration_optimisation`, `singular`
to the `LinAlgError` of `np.linalg.inv` on a singular normal matrix,
`alreadyCalibrated` to the `PyBerryIMUError` guard of
`calibrate_accelerometer`, and `saveError` to the `PyBerryIMUError` of
`save`.  `nonConvergence` is the error the spec's taxonomy demands on
budget exhaustion; the source has no raise site for it (claim C3). -/
inductive CalibErr where
  | insufficientData
  | singular
  | alreadyCalibrated
  | saveError
  | nonConvergence
  deriving DecidableEq

/-- `tolerance = 1e-9` (line 326). -/
def tolerance : ℚ := 1 / 1000000000

/-- `damping = 0.01` (line 325). -/
def damping : ℚ := 1 / 100

/-- The initial guess `x = [5, 0.5, 0.5, 5, 0.5, 5, 0.5, 0.5, 0.5]`
(line 331). -/
def initialGuess : Fin 9 → ℚ :=
  ![5, 1/2, 1/2, 5, 1/2, 5, 1/2, 1/2, 1/2]

/-- `nbr_iterations = 200` (line 328). -/
def nbrIterations : Nat := 200

/-- `R_prior = 100000` (line 327); the embedding compares squared norms, so
it carries the square of the sentinel. -/
def RPriorSqInit : ℚ := 100000 ^ 2

/-- The per-parameter relative change `2 * (x - last_x) / (x + last_x)` of
line 360.  `ℚ`-division is total with `q / 0 = 0`; the zero-denominator
edge case, where float semantics yield `±inf`/`nan` instead, is treated
separately over IEEE special values for claim C5. -/
def relChange (x last_x : Fin 9 → ℚ) (k : Fin 9) : ℚ :=
  2 * (x k - last_x k) / (x k + last_x k)

/-- Python's builtin `max` over the 9 components of a vector. -/
def max9 (v : Fin 9 → ℚ) : ℚ :=
  max (max (max (max (max (max (max (max (v 0) (v 1)) (v 2)) (v 3)) (v 4))
    (v 5)) (v 6)) (v 7)) (v 8)

/-- The convergence test of line 360:
`abs(max(2 * (x - last_x) / (x + last_x))) <= tolerance`.  Note the source
takes the absolute value of the (signed) maximum, not the maximum of the
absolute values (claim C4). -/
def convTest (x last_x : Fin 9 → ℚ) : Bool :=
  |max9 (relChange x last_x)| ≤ tolerance

/-- Modelled from the spec's words, for comparison with `convTest`
(claim C4): the maximum over the 9 parameters of the absolute relative
change, compared against the tolerance. -/
def specConvTest (x last_x : Fin 9 → ℚ) : Bool :=
  max9 (fun k => |relChange x last_x k|) ≤ tolerance

/-- State of one solver iteration: the optimization vector, the adaptive
gain and the squared norm of the previous residual vector.  The source
also keeps `last_x`, but at every loop head `last_x = x` (it starts as a
copy of `x` and is assigned `x` at the end of every non-final iteration),
so the convergence comparison of `x_new` against `last_x` is against the
`x` the iteration started from. -/
structure GNState where
  x : Fin 9 → ℚ
  gain : ℚ
  RPriorSq : ℚ

/-- The residual vector `R` (line 342): one `error_function` value per
point, at the matrix and bias built from `x`. -/
def residualVec (points : List (Point ℚ)) (x : Fin 9 → ℚ) :
    Fin points.length → ℚ :=
  fun i => residualAt x (points.get i)

/-- The Jacobian matrix `J` (line 343): one `_jacobian` row per point, at
the matrix and bias built from `x`. -/
def jacobianMat (points : List (Point ℚ)) (x : Fin 9 → ℚ) :
    Matrix (Fin points.length) (Fin 9) ℚ :=
  Matrix.of fun i k => jacobianAt x (points.get i) k

/-- One iteration body of `_perform_calibration_optimisation` (lines
339-357): residual vector and Jacobian at the current `x`, the
normal-equation solve via `np.linalg.inv(J.T.dot(J))` — the inverse is
`det⁻¹ • adjugate` and `LinAlgError` (`singular`) is raised on a singular
matrix — the damped update `x -= gain * (D.dot(H)).T`, and the adaptive
gain update driven by the residual-norm comparison (squared norms; `sqrt`
is monotone on nonnegatives). -/
def gnStep (points : List (Point ℚ)) (st : GNState) :
    Except CalibErr GNState :=
  if ((jacobianMat points st.x).transpose * jacobianMat points st.x).det = 0
  then .error .singular
  else
    let R := residualVec points st.x
    let J := jacobianMat points st.x
    let JtJ := J.transpose * J
    let H := JtJ.det⁻¹ • JtJ.adjugate
    let D := J.transpose.mulVec R
    let xNew := fun k => st.x k - st.gain * Matrix.vecMul D H k
    let RPostSq := ∑ i, R i ^ 2
    let gainNew :=
      if RPostSq ≤ st.RPriorSq then st.gain - damping * st.gain
      else st.gain * damping
    .ok ⟨xNew, gainNew, RPostSq⟩

/-- Result of the solver: `some (M, B)` models the two fields
`acc_scale_factor_matrix` and `acc_bias_vector` being assigned, `none`
models them left unset. -/
abbrev SolverResult :=
  Except CalibErr (Option (Matrix (Fin 3) (Fin 3) ℚ × (Fin 3 → ℚ)))

/-- The iteration loop (lines 338-365), by remaining budget.  When an
iteration satisfies the convergence test the source assigns
`acc_scale_factor_matrix, acc_bias_vector = optvec_to_M_and_b(x)` and
breaks: `.ok (some (M, B))`.  When the budget is exhausted without the
test ever holding, the `for` loop simply ends and the function returns
normally with the two fields never assigned: `.ok none`. -/
def gnLoop (points : List (Point ℚ)) : Nat → GNState → SolverResult
  | 0, _ => .ok none
  | n + 1, st =>
    match gnStep points st with
    | .error e => .error e
    | .ok st' =>
      if convTest st'.x st.x then .ok (some (optvec_to_M_and_b st'.x))
      else gnLoop points n st'

/-- `_perform_calibration_optimisation` (lines 253-365): the 9-point
minimum check (`ValueError`, modelled as `insufficientData`) followed by
the Gauss-Newton loop from the fixed initial state. -/
def _perform_calibration_optimisation (points : List (Point ℚ)) :
    SolverResult :=
  if points.length < 9 then .error .insufficientData
  else gnLoop points nbrIterations ⟨initialGuess, 1, RPriorSqInit⟩

/-- Recognizes the non-convergence error among solver outcomes. -/
def isNonConvergence (r : SolverResult) : Bool :=
  match r with
  | .error .nonConvergence => true
  | _ => false

/-! ### Point collection and the calibration object -/

/-- Lines 217-219 of `_do_six_point_one_g_calibration`: from the two
recorded readings of one axis, `v_max, v_min = max(..), min(..)`, then
`zero = (v_max + v_min) / 2` and `sensitivity = 2 / (v_max - v_min)`. -/
def axisZeroAndSensitivity (a b : ℚ) : ℚ × ℚ :=
  let vMax := max a b
  let vMin := min a b
  ((vMax + vMin) / 2, 2 / (vMax - vMin))

/-- The data one interactive client session supplies to a calibration run,
abstracted from the blocking I/O: the device settings, the five-second
averaged reading for each of the six axis/polarity poses (axis 0/1/2;
polarity index 0 for side `-1`, 1 for side `+1`), and the extra
operator-collected points. -/
structure ClientData (V : Type) where
  settings : V
  sixPoint : Fin 3 → Fin 2 → Point ℚ
  extraPoints : List (Point ℚ)

/-- `_do_six_point_one_g_calibration` (lines 179-221) with the polling and
five-second averaging abstracted into `ClientData.sixPoint`: the six
recorded points in collection order, and the per-axis zero and sensitivity
derived from each axis's two recorded on-axis components. -/
def _do_six_point_one_g_calibration {V : Type} (c : ClientData V) :
    List (Point ℚ) × (Fin 3 → ℚ) × (Fin 3 → ℚ) :=
  let pts := [c.sixPoint 0 0, c.sixPoint 0 1, c.sixPoint 1 0,
    c.sixPoint 1 1, c.sixPoint 2 0, c.sixPoint 2 1]
  (pts,
    fun a => (axisZeroAndSensitivity (c.sixPoint a 0 a) (c.sixPoint a 1 a)).1,
    fun a => (axisZeroAndSensitivity (c.sixPoint a 0 a) (c.sixPoint a 1 a)).2)

/-- The fields of a `StandardCalibration` object (lines 36-55).  `Option`
marks fields `__init__` sets to `None`; `V` is the opaque universe of
version tags and device-settings metadata. -/
structure CalState (V : Type) where
  pyberryimu_version : Option V
  berryimu_settings : Option V
  acc_zero_g : Option (Fin 3 → ℚ)
  acc_sensitivity : Option (Fin 3 → ℚ)
  acc_scale_factor_matrix : Option (Matrix (Fin 3) (Fin 3) ℚ)
  acc_bias_vector : Option (Fin 3 → ℚ)
  gyro_zero : Fin 3 → ℚ
  gyro_sensitivity : Fin 3 → ℚ
  deriving DecidableEq

/-- `__init__` (lines 36-55): version recorded, settings and all four
accelerometer parameters `None`, gyroscope defaults. -/
def initState {V : Type} (version : V) : CalState V where
  pyberryimu_version := some version
  berryimu_settings := none
  acc_zero_g := none
  acc_sensitivity := none
  acc_scale_factor_matrix := none
  acc_bias_vector := none
  gyro_zero := fun _ => 0
  gyro_sensitivity := fun _ => 1

/-- `calibrate_accelerometer` (lines 119-177): the already-calibrated
guard, settings capture, six-point pass, extra points, the
zero/sensitivity normalization `(points - zero) * sensitivity`, and the
optimisation run.  The result pairs the object state after the call with
the raised error, if any — Python leaves the mutations made before an
exception in place, so a failing run returns the partially mutated
state. -/
def calibrate_accelerometer {V : Type} (st : CalState V)
    (c : ClientData V) : CalState V × Option CalibErr :=
  if st.acc_zero_g.isSome then (st, some .alreadyCalibrated)
  else
    let st1 := { st with berryimu_settings := some c.settings }
    let six := _do_six_point_one_g_calibration c
    let st2 := { st1 with
      acc_zero_g := some six.2.1, acc_sensitivity := some six.2.2 }
    let points := six.1 ++ c.extraPoints
    let normalized := points.map fun p => fun i => (p i - six.2.1 i) * six.2.2 i
    match _perform_calibration_optimisation normalized with
    | .error e => (st2, some e)
    | .ok none => (st2, none)
    | .ok (some Mb) => ({ st2 with
        acc_scale_factor_matrix := some Mb.1,
        acc_bias_vector := some Mb.2 }, none)

/-- `transform_accelerometer_values` (lines 370-373), defined on models
whose four accelerometer parameters are populated (on an empty model the
source dereferences `None` and crashes; `none` stands for that). -/
def transform_accelerometer_values {V : Type} (st : CalState V)
    (acc_values : Point ℚ) : Option (Point ℚ) :=
  match st.acc_zero_g, st.acc_sensitivity, st.acc_scale_factor_matrix,
      st.acc_bias_vector with
  | some zero, some sens, some M, some b =>
    let raw_g_values := fun i => (acc_values i - zero i) * sens i
    some (M.mulVec fun i => raw_g_values i - b i)
  | _, _, _, _ => none

/-! ### Persistence (`save` / `load`) -/

/-- The JSON document `save` (lines 83-101) produces: keys
`BerryIMU_settings` (whose value is JSON `null` when the settings were
`None`), `accelerometer` with `zero`, `sensitivity`, `scale_factor` (the
row-major `flatten()`) and `bias`, and `gyro` with `zero` and
`sensitivity`.  `save` writes no `pyberryimu_version` key and no
`gyroscope` key. -/
structure SavedDoc (V : Type) where
  BerryIMU_settings : Option V
  acc_zero : Fin 3 → ℚ
  acc_sensitivity : Fin 3 → ℚ
  acc_scale_factor : Fin 9 → ℚ
  acc_bias : Fin 3 → ℚ
  gyro_zero : Fin 3 → ℚ
  gyro_sensitivity : Fin 3 → ℚ
  deriving DecidableEq

/-- `flatten()` of a 3×3 matrix, row-major. -/
def flattenM (M : Matrix (Fin 3) (Fin 3) ℚ) : Fin 9 → ℚ :=
  fun k => M ⟨k.val / 3, by omega⟩ ⟨k.val % 3, by omega⟩

/-- `np.reshape(·, (3, 3))`, row-major. -/
def reshapeM (v : Fin 9 → ℚ) : Matrix (Fin 3) (Fin 3) ℚ :=
  Matrix.of fun i j => v ⟨3 * i.val + j.val, by omega⟩

/-- `save` (lines 83-101).  The `try` block raises `PyBerryIMUError`
(`saveError`) when an accelerometer parameter field is still `None`,
since `None` has no `tolist`. -/
def save {V : Type} (st : CalState V) : Except CalibErr (SavedDoc V) :=
  match st.acc_zero_g, st.acc_sensitivity, st.acc_scale_factor_matrix,
      st.acc_bias_vector with
  | some z, some s, some M, some b =>
    .ok ⟨st.berryimu_settings, z, s, flattenM M, b,
      st.gyro_zero, st.gyro_sensitivity⟩
  | _, _, _, _ => .error .saveError

/-- `load` (lines 57-81) applied to a document of the shape `save`
produces.  `doc.get(key, default)` falls back to its default exactly when
the key is absent: `pyberryimu_version` and `gyroscope` are absent from a
saved document; `BerryIMU_settings`, `accelerometer` and `gyro` are
present.  Lines 65-66 of the source assign the value found under
`pyberryimu_version` to the `berryimu_settings` attribute and the value
found under `BerryIMU_settings` to the `pyberryimu_version` attribute. -/
def load {V : Type} (version : V) (doc : SavedDoc V) : CalState V where
  berryimu_settings := some version
  pyberryimu_version := doc.BerryIMU_settings
  acc_zero_g := some doc.acc_zero
  acc_sensitivity := some doc.acc_sensitivity
  acc_scale_factor_matrix := some (reshapeM doc.acc_scale_factor)
  acc_bias_vector := some doc.acc_bias
  gyro_zero := fun _ => 0
  gyro_sensitivity := fun _ => 1

/-! ### IEEE special values, for the zero-denominator edge case (C5) -/

/-- IEEE-754 special values over exact rationals: enough of the float
semantics to evaluate line 360 on inputs where `x + last_x` has zero
components.  Every operation involved is exact at the inputs of interest,
so only the special values need modelling, not rounding. -/
inductive FVal where
  | num (q : ℚ)
  | posInf
  | negInf
  | nan
  deriving DecidableEq

/-- `2 * (a - b) / (a + b)` under numpy float semantics: a zero
denominator yields `±inf` for a nonzero numerator and `nan` for `0/0`
(numpy emits a runtime warning and continues; no exception). -/
def relChangeF (a b : ℚ) : FVal :=
  let n := 2 * (a - b)
  let d := a + b
  if d = 0 then
    if 0 < n then .posInf else if n < 0 then .negInf else .nan
  else .num (n / d)

/-- The `<` of Python floats: every comparison involving `nan` is false. -/
def fltF : FVal → FVal → Bool
  | .num a, .num b => a < b
  | .num _, .posInf => true
  | .negInf, .num _ => true
  | .negInf, .posInf => true
  | _, _ => false

/-- Python's builtin `max` over a nonempty sequence: keep the current
value unless the next compares strictly greater. -/
def pymax (v : FVal) : List FVal → FVal
  | [] => v
  | a :: rest => pymax (if fltF v a then a else v) rest

/-- `abs` of a Python float. -/
def fabs : FVal → FVal
  | .num q => .num |q|
  | .nan => .nan
  | _ => .posInf

/-- `r <= tolerance` on Python floats (false for `nan` and `+inf`). -/
def fleTol : FVal → Bool
  | .num q => q ≤ tolerance
  | .negInf => true
  | _ => false

/-- Line 360 under IEEE special-value semantics:
`abs(max(2 * (x - last_x) / (x + last_x))) <= tolerance`, the ratios taken
in component order. -/
def convTestF (x last_x : Fin 9 → ℚ) : Bool :=
  fleTol (fabs (pymax (relChangeF (x 0) (last_x 0))
    [relChangeF (x 1) (last_x 1), relChangeF (x 2) (last_x 2),
     relChangeF (x 3) (last_x 3), relChangeF (x 4) (last_x 4),
     relChangeF (x 5) (last_x 5), relChangeF (x 6) (last_x 6),
     relChangeF (x 7) (last_x 7), relChangeF (x 8) (last_x 8)]))

/-! ### Concrete inputs used by counterexamples and witnesses -/

/-- C4 counterexample data: every parameter unchanged except the first,
which moved from `3` to `1`. -/
def xC4 : Fin 9 → ℚ := fun _ => 1

/-- C4 counterexample data: the previous parameter vector. -/
def lC4 : Fin 9 → ℚ
  | 0 => 3
  | 1 => 1 | 2 => 1 | 3 => 1 | 4 => 1 | 5 => 1 | 6 => 1 | 7 => 1 | 8 => 1

/-- C5 failing input: first parameter moved from `1` to `-1`, so
`x_new + x_old` has a zero component with old and new not both zero. -/
def xC5 : Fin 9 → ℚ
  | 0 => -1
  | 1 => 1 | 2 => 1 | 3 => 1 | 4 => 1 | 5 => 1 | 6 => 1 | 7 => 1 | 8 => 1

/-- C5 failing input: the previous parameter vector. -/
def lC5 : Fin 9 → ℚ := fun _ => 1

/-- C6 counterexample: a populated model with device settings `5` under
version tag `0` (metadata universe `ℕ`). -/
def mC6 : CalState ℕ where
  pyberryimu_version := some 0
  berryimu_settings := some 5
  acc_zero_g := some fun _ => 1
  acc_sensitivity := some fun _ => 2
  acc_scale_factor_matrix := some 1
  acc_bias_vector := some fun _ => 3
  gyro_zero := fun _ => 4
  gyro_sensitivity := fun _ => 5

/-- The C6 model after `save` then `load` (with default version `0`). -/
def roundTripC6 : Option (CalState ℕ) :=
  match save mC6 with
  | .ok d => some (load 0 d)
  | .error _ => none

/-- C10 counterexample client: settings `7`, ideal six-point poses
(`∓1000` on the axis under test), and no extra points — so only 6 points
reach the solver. -/
def cBad : ClientData ℕ where
  settings := 7
  sixPoint := fun a s => fun i =>
    if i = a then (if s = 0 then -1000 else 1000) else 0
  extraPoints := []

/-- A populated state used as the C8 witness. -/
def stC8 : CalState ℕ where
  pyberryimu_version := some 0
  berryimu_settings := some 1
  acc_zero_g := some fun _ => 2
  acc_sensitivity := some fun _ => 3
  acc_scale_factor_matrix := some 1
  acc_bias_vector := some fun _ => 4
  gyro_zero := fun _ => 0
  gyro_sensitivity := fun _ => 1

/-- A trivial client used as the C8 witness. -/
def cC8 : ClientData ℕ where
  settings := 0
  sixPoint := fun _ _ => fun _ => 0
  extraPoints := []

/-- An eight-point set, used as the C7 witness. -/
def pts8 : List (Point ℚ) := List.replicate 8 fun _ => 0

end PyBerryIMU

namespace PyBerryIMU

/-- Derivative of a sum of three squares of affine functions, the common
shape of the residual as a function of any single parameter. -/
theorem hasDerivAt_three_squares (a₁ c₁ a₂ c₂ a₃ c₃ t : ℝ) :
    HasDerivAt
      (fun s => (a₁ * s + c₁) ^ 2 + (a₂ * s + c₂) ^ 2 + (a₃ * s + c₃) ^ 2 - 1)
      (2 * (a₁ * t + c₁) * a₁ + 2 * (a₂ * t + c₂) * a₂ + 2 * (a₃ * t + c₃) * a₃)
      t := by
  have h1 : HasDerivAt (fun s : ℝ => a₁ * s + c₁) a₁ t := by
    simpa using ((hasDerivAt_id t).const_mul a₁).add_const c₁
  have h2 : HasDerivAt (fun s : ℝ => a₂ * s + c₂) a₂ t := by
    simpa using ((hasDerivAt_id t).const_mul a₂).add_const c₂
  have h3 : HasDerivAt (fun s : ℝ => a₃ * s + c₃) a₃ t := by
    simpa using ((hasDerivAt_id t).const_mul a₃).add_const c₃
  have := (((h1.pow 2).add (h2.pow 2)).add (h3.pow 2)).sub_const 1
  convert this using 1
  ring

/-- Auxiliary step for the Jacobian theorem: once the residual, as a function
of the parameter `k` alone, has been put in sum-of-three-affine-squares form
and the Jacobian entry has been matched with the corresponding derivative,
the `HasDerivAt` statement follows. -/
theorem deriv_case_aux (x : Fin 9 → ℝ) (p : Point ℝ) (k : Fin 9)
    (a b c d e f : ℝ)
    (hfun : ∀ t, residualAt (Function.update x k t) p =
      (a * t + b) ^ 2 + (c * t + d) ^ 2 + (e * t + f) ^ 2 - 1)
    (hval : jacobianAt x p k =
      2 * (a * x k + b) * a + 2 * (c * x k + d) * c + 2 * (e * x k + f) * e) :
    HasDerivAt (fun t => residualAt (Function.update x k t) p)
      (jacobianAt x p k) (x k) := by
  rw [show (fun t => residualAt (Function.update x k t) p) =
      fun t => (a * t + b) ^ 2 + (c * t + d) ^ 2 + (e * t + f) ^ 2 - 1
    from funext hfun, hval]
  exact hasDerivAt_three_squares a b c d e f (x k)

set_option maxHeartbeats 4000000 in
/-- C1: each of the 9 entries of the row computed by `_jacobian` is the
analytic partial derivative of the residual `error_function` (that is, of
`x ↦ ‖M(x)·(B(x) − V)‖² − 1 = ‖M(x)·(V − B(x))‖² − 1`) with respect to the
corresponding component `Mxx, Mxy, Mxz, Myy, Myz, Mzz, Bx, By, Bz` of the
optimization vector. -/
theorem jacobian_entries_are_partial_derivatives
    (x : Fin 9 → ℝ) (p : Point ℝ) (k : Fin 9) :
    HasDerivAt (fun t => residualAt (Function.update x k t) p)
      (jacobianAt x p k) (x k) := by
  fin_cases k
  · -- Mxx
    refine deriv_case_aux x p 0
      (x 6 - p 0) (x 1 * (x 7 - p 1) + x 2 * (x 8 - p 2))
      0 (x 1 * (x 6 - p 0) + x 3 * (x 7 - p 1) + x 4 * (x 8 - p 2))
      0 (x 2 * (x 6 - p 0) + x 4 * (x 7 - p 1) + x 5 * (x 8 - p 2)) ?_ ?_
    · intro t
      simp [residualAt, error_function, optvec_to_M_and_b, Function.update,
        Fin.sum_univ_three]
      ring
    · simp [jacobianAt, _jacobian, optvec_to_M_and_b]
      ring
  · -- Mxy
    refine deriv_case_aux x p 1
      (x 7 - p 1) (x 0 * (x 6 - p 0) + x 2 * (x 8 - p 2))
      (x 6 - p 0) (x 3 * (x 7 - p 1) + x 4 * (x 8 - p 2))
      0 (x 2 * (x 6 - p 0) + x 4 * (x 7 - p 1) + x 5 * (x 8 - p 2)) ?_ ?_
    · intro t
      simp [residualAt, error_function, optvec_to_M_and_b, Function.update,
        Fin.sum_univ_three]
      ring
    · simp [jacobianAt, _jacobian, optvec_to_M_and_b]
      ring
  · -- Mxz
    refine deriv_case_aux x p 2
      (x 8 - p 2) (x 0 * (x 6 - p 0) + x 1 * (x 7 - p 1))
      0 (x 1 * (x 6 - p 0) + x 3 * (x 7 - p 1) + x 4 * (x 8 - p 2))
      (x 6 - p 0) (x 4 * (x 7 - p 1) + x 5 * (x 8 - p 2)) ?_ ?_
    · intro t
      simp [residualAt, error_function, optvec_to_M_and_b, Function.update,
        Fin.sum_univ_three]
      ring
    · simp [jacobianAt, _jacobian, optvec_to_M_and_b]
      ring
  · -- Myy
    refine deriv_case_aux x p 3
      0 (x 0 * (x 6 - p 0) + x 1 * (x 7 - p 1) + x 2 * (x 8 - p 2))
      (x 7 - p 1) (x 1 * (x 6 - p 0) + x 4 * (x 8 - p 2))
      0 (x 2 * (x 6 - p 0) + x 4 * (x 7 - p 1) + x 5 * (x 8 - p 2)) ?_ ?_
    · intro t
      simp [residualAt, error_function, optvec_to_M_and_b, Function.update,
        Fin.sum_univ_three]
      ring
    · simp [jacobianAt, _jacobian, optvec_to_M_and_b]
      ring
  · -- Myz
    refine deriv_case_aux x p 4
      0 (x 0 * (x 6 - p 0) + x 1 * (x 7 - p 1) + x 2 * (x 8 - p 2))
      (x 8 - p 2) (x 1 * (x 6 - p 0) + x 3 * (x 7 - p 1))
      (x 7 - p 1) (x 2 * (x 6 - p 0) + x 5 * (x 8 - p 2)) ?_ ?_
    · intro t
      simp [residualAt, error_function, optvec_to_M_and_b, Function.update,
        Fin.sum_univ_three]
      ring
    · simp [jacobianAt, _jacobian, optvec_to_M_and_b]
      ring
  · -- Mzz
    refine deriv_case_aux x p 5
      0 (x 0 * (x 6 - p 0) + x 1 * (x 7 - p 1) + x 2 * (x 8 - p 2))
      0 (x 1 * (x 6 - p 0) + x 3 * (x 7 - p 1) + x 4 * (x 8 - p 2))
      (x 8 - p 2) (x 2 * (x 6 - p 0) + x 4 * (x 7 - p 1)) ?_ ?_
    · intro t
      simp [residualAt, error_function, optvec_to_M_and_b, Function.update,
        Fin.sum_univ_three]
      ring
    · simp [jacobianAt, _jacobian, optvec_to_M_and_b]
      ring
  · -- Bx
    refine deriv_case_aux x p 6
      (x 0) (x 1 * (x 7 - p 1) + x 2 * (x 8 - p 2) - x 0 * p 0)
      (x 1) (x 3 * (x 7 - p 1) + x 4 * (x 8 - p 2) - x 1 * p 0)
      (x 2) (x 4 * (x 7 - p 1) + x 5 * (x 8 - p 2) - x 2 * p 0) ?_ ?_
    · intro t
      simp [residualAt, error_function, optvec_to_M_and_b, Function.update,
        Fin.sum_univ_three]
      ring
    · simp [jacobianAt, _jacobian, optvec_to_M_and_b]
      ring
  · -- By
    refine deriv_case_aux x p 7
      (x 1) (x 0 * (x 6 - p 0) + x 2 * (x 8 - p 2) - x 1 * p 1)
      (x 3) (x 1 * (x 6 - p 0) + x 4 * (x 8 - p 2) - x 3 * p 1)
      (x 4) (x 2 * (x 6 - p 0) + x 5 * (x 8 - p 2) - x 4 * p 1) ?_ ?_
    · intro t
      simp [residualAt, error_function, optvec_to_M_and_b, Function.update,
        Fin.sum_univ_three]
      ring
    · simp [jacobianAt, _jacobian, optvec_to_M_and_b]
      ring
  · -- Bz
    refine deriv_case_aux x p 8
      (x 2) (x 0 * (x 6 - p 0) + x 1 * (x 7 - p 1) - x 2 * p 2)
      (x 4) (x 1 * (x 6 - p 0) + x 3 * (x 7 - p 1) - x 4 * p 2)
      (x 5) (x 2 * (x 6 - p 0) + x 4 * (x 7 - p 1) - x 5 * p 2) ?_ ?_
    · intro t
      simp [residualAt, error_function, optvec_to_M_and_b, Function.update,
        Fin.sum_univ_three]
      ring
    · simp [jacobianAt, _jacobian, optvec_to_M_and_b]
      ring

/-- C2 counterexample: for recorded axis readings `-1000` and `+1000` the
code yields sensitivity `2 / 2000 = 0.001`, not the `0.002` the claim
states for that instance. -/
theorem six_point_first_instance_wrong :
    axisZeroAndSensitivity (-1000) 1000 = (0, 1 / 1000) ∧
      ((1 : ℚ) / 1000 == (2 : ℚ) / 1000) = false := by
  constructor
  · simp only [axisZeroAndSensitivity, Prod.mk.injEq]
    norm_num [max_def, min_def]
  · simp only [beq_eq_false_iff_ne, ne_eq]
    norm_num

/-- C2 (amended): on each axis the six-point pass sets
`zero = (max + min) / 2` and `sensitivity = 2 / (max - min)` from the two
recorded readings; for readings `±1000` this yields zero `0` and
sensitivity `0.001` (not `0.002`), and for readings `1200` and `-800`
zero `200` and sensitivity `0.001`. -/
theorem six_point_zero_and_sensitivity {V : Type} (c : ClientData V)
    (a : Fin 3) :
    ((_do_six_point_one_g_calibration c).2.1 a =
        (max (c.sixPoint a 0 a) (c.sixPoint a 1 a) +
          min (c.sixPoint a 0 a) (c.sixPoint a 1 a)) / 2 ∧
      (_do_six_point_one_g_calibration c).2.2 a =
        2 / (max (c.sixPoint a 0 a) (c.sixPoint a 1 a) -
          min (c.sixPoint a 0 a) (c.sixPoint a 1 a))) ∧
    axisZeroAndSensitivity (-1000) 1000 = (0, 1 / 1000) ∧
    axisZeroAndSensitivity 1200 (-800) = (200, 1 / 1000) :=
  ⟨⟨rfl, rfl⟩,
    by simp only [axisZeroAndSensitivity, Prod.mk.injEq]
       norm_num [max_def, min_def],
    by simp only [axisZeroAndSensitivity, Prod.mk.injEq]
       norm_num [max_def, min_def]⟩

/-- Helper for C3: the iteration body raises only the singular-matrix
error; in particular it never produces the non-convergence error. -/
theorem gnStep_cases (points : List (Point ℚ)) (st : GNState) :
    gnStep points st = .error .singular ∨
      ∃ st', gnStep points st = .ok st' := by
  unfold gnStep
  split
  · exact Or.inl rfl
  · exact Or.inr ⟨_, rfl⟩

/-- Unfolding equation of one loop iteration. -/
theorem gnLoop_succ (points : List (Point ℚ)) (n : Nat) (st : GNState) :
    gnLoop points (n + 1) st =
      match gnStep points st with
      | .error e => .error e
      | .ok st' =>
        if convTest st'.x st.x then .ok (some (optvec_to_M_and_b st'.x))
        else gnLoop points n st' := rfl

/-- C3: the claim fails on the code.  An exhausted iteration budget makes
the loop return `.ok none` — the source function returns normally with
`acc_scale_factor_matrix` and `acc_bias_vector` never assigned — and no
execution of the loop or of `_perform_calibration_optimisation` produces
a non-convergence error. -/
theorem budget_exhaustion_returns_silently :
    (∀ (points : List (Point ℚ)) (st : GNState),
      gnLoop points 0 st = .ok none) ∧
    (∀ (points : List (Point ℚ)) (n : Nat) (st : GNState),
      isNonConvergence (gnLoop points n st) = false) ∧
    (∀ points : List (Point ℚ),
      isNonConvergence (_perform_calibration_optimisation points) = false) := by
  have hloop : ∀ (points : List (Point ℚ)) (n : Nat) (st : GNState),
      isNonConvergence (gnLoop points n st) = false := by
    intro points n
    induction n with
    | zero => intro st; rfl
    | succ n ih =>
      intro st
      rw [gnLoop_succ]
      rcases gnStep_cases points st with h | ⟨st', h⟩
      · rw [h]
        rfl
      · rw [h]
        cases hc : convTest st'.x st.x
        · simpa [hc] using ih st'
        · simp [hc, isNonConvergence]
  refine ⟨fun _ _ => rfl, hloop, ?_⟩
  intro points
  unfold _perform_calibration_optimisation
  split
  · rfl
  · exact hloop points nbrIterations _

/-- C4 counterexample: at `x_new = (1,…,1)` and `x_old = (3,1,…,1)` the
source's test — absolute value of the signed maximum — succeeds, so the
solver stops, although the maximum absolute relative change is
`1 > 1e-9`. -/
theorem convergence_test_uses_abs_of_max :
    convTest xC4 lC4 = true ∧ specConvTest xC4 lC4 = false := by
  have h0 : relChange xC4 lC4 0 = -1 := by norm_num [relChange, xC4, lC4]
  have h1 : ∀ k : Fin 9, k ≠ 0 → relChange xC4 lC4 k = 0 := by
    intro k hk
    fin_cases k
    · exact absurd rfl hk
    all_goals norm_num [relChange, xC4, lC4]
  have hmax : max9 (relChange xC4 lC4) = 0 := by
    rw [max9, h0, h1 1 (by decide), h1 2 (by decide), h1 3 (by decide),
      h1 4 (by decide), h1 5 (by decide), h1 6 (by decide),
      h1 7 (by decide), h1 8 (by decide)]
    norm_num [max_def]
  constructor
  · simp only [convTest, decide_eq_true_eq, hmax, abs_zero]
    norm_num [tolerance]
  · simp only [specConvTest, decide_eq_false_iff_not, max9]
    rw [h0, h1 1 (by decide), h1 2 (by decide), h1 3 (by decide),
      h1 4 (by decide), h1 5 (by decide), h1 6 (by decide),
      h1 7 (by decide), h1 8 (by decide)]
    norm_num [max_def, tolerance, abs_neg, abs_one, abs_zero]

/-- C4 (amended): an iteration stops the loop and accepts `(M, B)` from
the final parameter vector exactly when the absolute value of the signed
maximum over the 9 parameters of the relative change
`2·(x_new − x_old)/(x_new + x_old)` is `≤ 1e-9` — the absolute value is
taken after the maximum; otherwise iteration continues on the updated
state. -/
theorem iteration_stops_iff_tolerance_met (points : List (Point ℚ))
    (n : Nat) (st : GNState) :
    gnLoop points (n + 1) st =
      match gnStep points st with
      | .error e => .error e
      | .ok st' =>
        if |max9 (relChange st'.x st.x)| ≤ tolerance
        then .ok (some (optvec_to_M_and_b st'.x))
        else gnLoop points n st' := by
  rw [gnLoop_succ]
  rcases gnStep_cases points st with h | ⟨st', h⟩
  · rw [h]
  · rw [h]
    by_cases hc : |max9 (relChange st'.x st.x)| ≤ tolerance
    · simp [hc, convTest]
    · simp [hc, convTest]

/-- C5: the convergence expression of line 360 divides by zero and has no
guard.  At `x_new = (−1,1,…,1)`, `x_old = (1,…,1)` the first component has
`x_new + x_old = 0` with old and new not both zero — per the claim that
parameter must count as not converged — yet under IEEE semantics the
component ratio is `−inf`, Python's `max` of the ratios is `0`, and the
test succeeds: the solver treats the state as converged. -/
theorem unguarded_zero_denominator_counts_as_converged :
    convTestF xC5 lC5 = true ∧ xC5 0 + lC5 0 = 0 ∧
      ((xC5 0 == 0) && (lC5 0 == 0)) = false := by
  refine ⟨?_, by norm_num [xC5, lC5], ?_⟩
  · norm_num [convTestF, relChangeF, xC5, lC5, pymax, fltF, fabs, fleTol,
      tolerance]
  · simp [xC5, lC5]

/-- Helper for C6: row-major reshape after row-major flatten restores the
matrix. -/
theorem reshape_flatten (M : Matrix (Fin 3) (Fin 3) ℚ) :
    reshapeM (flattenM M) = M := by
  ext i j
  fin_cases i <;> fin_cases j <;> rfl

/-- C6 counterexample: the device-settings metadata does not round-trip.
The saved model carries settings `5` under version tag `0`; after `save`
then `load` the `berryimu_settings` attribute holds the default version
`0` instead (`load` reads it from the absent `pyberryimu_version` key), so
the loaded model differs from the saved one. -/
theorem save_load_not_lossless :
    (roundTripC6.map fun st => st.berryimu_settings) = some (some 0) ∧
      mC6.berryimu_settings = some 5 ∧
      (roundTripC6 == some mC6) = false :=
  ⟨rfl, rfl, rfl⟩

/-- C6 (amended): round-tripping `save` then `load` preserves exactly the
four numeric accelerometer fields (`zero`, `sensitivity`, the row-major
scale-factor matrix, `bias`).  The metadata does not survive: the loaded
`berryimu_settings` is the caller's default version and the loaded
`pyberryimu_version` is the saved device settings (`save` writes no
version key and `load` reads swapped keys); the gyroscope values reset to
their defaults (`save` writes key `gyro`, `load` reads `gyroscope`). -/
theorem save_load_roundtrip {V : Type} (version : V) (pv bs : Option V)
    (z s b : Fin 3 → ℚ) (M : Matrix (Fin 3) (Fin 3) ℚ) (gz gs : Fin 3 → ℚ) :
    (save (⟨pv, bs, some z, some s, some M, some b, gz, gs⟩ : CalState V)).map
        (load version) =
      .ok ⟨bs, some version, some z, some s, some M, some b,
        fun _ => 0, fun _ => 1⟩ := by
  simp [save, load, Except.map, reshape_flatten]

/-- C7: with fewer than 9 points the solver fails with the
insufficient-data error; the length test is the first statement of
`_perform_calibration_optimisation`, executed before the loop — and hence
before any residual, Jacobian or inversion computation — is entered. -/
theorem insufficient_points_rejected (points : List (Point ℚ))
    (h : points.length < 9) :
    _perform_calibration_optimisation points = .error .insufficientData := by
  unfold _perform_calibration_optimisation
  rw [if_pos h]

/-- C7 witness: an eight-point set is rejected. -/
theorem insufficient_points_rejected_witness :
    pts8.length < 9 ∧
      _perform_calibration_optimisation pts8 = .error .insufficientData :=
  ⟨by decide, insufficient_points_rejected pts8 (by decide)⟩

/-- C8: invoking `calibrate_accelerometer` on a model whose calibration
parameters are populated fails at the guard with the already-calibrated
error, before any mutation: the returned state is the input state. -/
theorem already_calibrated_guard {V : Type} (st : CalState V)
    (c : ClientData V) (z : Fin 3 → ℚ) (h : st.acc_zero_g = some z) :
    calibrate_accelerometer st c = (st, some .alreadyCalibrated) := by
  unfold calibrate_accelerometer
  rw [h]
  rfl

/-- C8 witness: the populated model `stC8` is rejected unchanged. -/
theorem already_calibrated_guard_witness :
    stC8.acc_zero_g = some (fun _ => (2 : ℚ)) ∧
      calibrate_accelerometer stC8 cC8 = (stC8, some .alreadyCalibrated) :=
  ⟨rfl, already_calibrated_guard stC8 cC8 (fun _ => 2) rfl⟩

/-- C9: on a populated model the forward transform returns
`M · ((raw − zero) * sensitivity − B)`, the subtraction of `zero` and the
multiplication by `sensitivity` taken componentwise. -/
theorem transform_formula {V : Type} (pv bs : Option V)
    (zero sens b : Fin 3 → ℚ) (M : Matrix (Fin 3) (Fin 3) ℚ)
    (gz gs : Fin 3 → ℚ) (raw : Point ℚ) :
    transform_accelerometer_values
        (⟨pv, bs, some zero, some sens, some M, some b, gz, gs⟩ : CalState V)
        raw =
      some fun i => ∑ j : Fin 3, M i j * ((raw j - zero j) * sens j - b j) := by
  simp only [transform_accelerometer_values]
  refine congrArg some (funext fun i => ?_)
  simp [Matrix.mulVec, Matrix.dotProduct]

/-- C10 counterexample: a run that fails with the insufficient-data error
(six poses, no extra points) is not fully abandoned: the zero and
sensitivity vectors derived during point collection, and the captured
device settings, stay populated on the model. -/
theorem failed_run_keeps_partial_state :
    (calibrate_accelerometer (initState 0) cBad).2 =
        some .insufficientData ∧
      (calibrate_accelerometer (initState 0) cBad).1.acc_zero_g.isSome =
        true ∧
      (calibrate_accelerometer (initState 0) cBad).1.acc_sensitivity.isSome =
        true ∧
      (calibrate_accelerometer (initState 0) cBad).1.berryimu_settings =
        some 7 :=
  ⟨rfl, rfl, rfl, rfl⟩

/-- C10 (amended): a failed run never populates the scale-factor matrix or
the bias vector — the optimization state is discarded — but the run is not
atomic: the zero and sensitivity vectors derived during point collection
and the captured device settings remain populated on the model. -/
theorem failed_run_discards_M_and_B {V : Type} (version : V)
    (c : ClientData V) (e : CalibErr)
    (h : (calibrate_accelerometer (initState version) c).2 = some e) :
    (calibrate_accelerometer (initState version) c).1.acc_scale_factor_matrix
        = none ∧
      (calibrate_accelerometer (initState version) c).1.acc_bias_vector
        = none ∧
      (calibrate_accelerometer (initState version) c).1.acc_zero_g.isSome
        = true ∧
      (calibrate_accelerometer (initState version) c).1.acc_sensitivity.isSome
        = true ∧
      (calibrate_accelerometer (initState version) c).1.berryimu_settings
        = some c.settings := by
  unfold calibrate_accelerometer at h ⊢
  simp only [initState, Option.isSome_none, Bool.false_eq_true, if_false] at h ⊢
  generalize hg : _perform_calibration_optimisation _ = r at h ⊢
  rcases r with e' | o
  · simp
  · rcases o with _ | Mb
    · simp at h
    · simp at h

/-- C10 amended-claim witness: the six-pose, no-extra-points run. -/
theorem failed_run_discards_M_and_B_witness :
    (calibrate_accelerometer (initState (0 : ℕ)) cBad).2 =
        some .insufficientData ∧
      ((calibrate_accelerometer (initState (0 : ℕ)) cBad).1.acc_scale_factor_matrix
          = none ∧
        (calibrate_accelerometer (initState (0 : ℕ)) cBad).1.acc_bias_vector
          = none ∧
        (calibrate_accelerometer (initState (0 : ℕ)) cBad).1.acc_zero_g.isSome
          = true ∧
        (calibrate_accelerometer (initState (0 : ℕ)) cBad).1.acc_sensitivity.isSome
          = true ∧
        (calibrate_accelerometer (initState (0 : ℕ)) cBad).1.berryimu_settings
          = some cBad.settings) :=
  ⟨rfl, failed_run_discards_M_and_B 0 cBad .insufficientData rfl⟩

end PyBerryIMU
